import Mathlib

/-!
# Verification of the ssr-dashboard product data-access layer

A shallow embedding of `src/lib/actions/productActions.ts` and
`src/models/Product.ts`.  Raw form input, the JavaScript `Number`
coercion, the validator contract, the document store (with its schema
indexes) and the cache-invalidation sink are all modelled explicitly, and
the six server actions are translated into pure state-passing functions.
Store calls may fail; a fault schedule in the world state decides which
call raises, mirroring the `try`/`catch` structure of the actions.
-/

set_option maxRecDepth 40000

namespace SSR

/-! ## JavaScript numbers and the `Number(·)` coercion

`FormData.get` returns a string or `null`.  `Number(null) = 0`,
`Number("") = 0` (after trimming whitespace), a decimal literal parses to
its value, and anything else is `NaN`.  We model a JS number as either a
rational or `NaN`, and the coercion on decimal literals (an optional sign,
digits, an optional fraction part); exponent/hex forms do not occur in
form input for this app and are out of scope of the claims. -/

inductive JSNum where
  | nan : JSNum
  | num : ℚ → JSNum
deriving DecidableEq, Repr

def digitsToNat (cs : List Char) : Nat :=
  cs.foldl (fun a c => a * 10 + (c.toNat - 48)) 0

def isSpaceChar (c : Char) : Bool :=
  c == ' ' || c == '\t' || c == '\n' || c == '\r'

/-- JS `String.prototype.trim` (common whitespace). -/
def strTrim (s : String) : String :=
  ⟨((s.data.dropWhile isSpaceChar).reverse.dropWhile isSpaceChar).reverse⟩

def charLower (c : Char) : Char :=
  if 'A' ≤ c && c ≤ 'Z' then Char.ofNat (c.toNat + 32) else c

/-- JS `String.prototype.toLowerCase` (ASCII case folding, all the data
in this development needs). -/
def strLower (s : String) : String :=
  ⟨s.data.map charLower⟩

/-- Parse an unsigned decimal literal: `digits`, `digits.digits`,
`digits.` or `.digits` (at least one digit overall). -/
def parseUnsigned (cs : List Char) : Option ℚ :=
  let ip := cs.takeWhile (· ≠ '.')
  let rest := cs.dropWhile (· ≠ '.')
  if ip.all (·.isDigit) then
    match rest with
    | [] => if ip.isEmpty then none else some (digitsToNat ip : ℚ)
    | '.' :: fp =>
      if fp.all (·.isDigit) then
        if ip.isEmpty && fp.isEmpty then none
        else some ((digitsToNat ip : ℚ) + (digitsToNat fp : ℚ) / (10 ^ fp.length : ℚ))
      else none
    | _ :: _ => none
  else none

/-- JavaScript `Number(x)` on a `FormData` entry (`string | null`):
`Number(null) = 0`, `Number("") = 0`, decimal literal → value, otherwise
`NaN`. -/
def jsNumber : Option String → JSNum
  | none => .num 0
  | some s =>
    let t := strTrim s
    if t = "" then .num 0
    else
      match t.data with
      | '-' :: rest => (parseUnsigned rest).elim .nan (fun q => .num (-q))
      | '+' :: rest => (parseUnsigned rest).elim .nan .num
      | cs => (parseUnsigned cs).elim .nan .num

/-! ## FormData -/

/-- Multipart form data: an ordered multimap of string keys to string
values (file entries do not occur in this app's forms). -/
structure FormData where
  entries : List (String × String)
deriving DecidableEq, Repr

/-- `formData.get(k)`: first value for `k`, or `null` (here `none`). -/
def FormData.get (fd : FormData) (k : String) : Option String :=
  (fd.entries.find? (fun e => e.1 == k)).map (·.2)

/-- `formData.getAll(k)`: all values for `k`, in order. -/
def FormData.getAll (fd : FormData) (k : String) : List String :=
  (fd.entries.filter (fun e => e.1 == k)).map (·.2)

/-- `formData.has(k)`. -/
def FormData.has (fd : FormData) (k : String) : Bool :=
  fd.entries.any (fun e => e.1 == k)

/-! ## Case-insensitive substring matching

The listing query sends `{$regex: search, $options: 'i'}` to the store;
for the plain (metacharacter-free) search strings the spec talks about
this is case-insensitive substring containment, which is how we model the
store's matcher. -/

def listStartsWith : List Char → List Char → Bool
  | [], _ => true
  | _ :: _, [] => false
  | a :: as, b :: bs => a == b && listStartsWith as bs

def listContainsSub (needle : List Char) : List Char → Bool
  | [] => listStartsWith needle []
  | hay@(_ :: rest) => listStartsWith needle hay || listContainsSub needle rest

/-- Case-insensitive containment of `needle` in `hay`. -/
def ciContains (hay needle : String) : Bool :=
  listContainsSub (strLower needle).data (strLower hay).data

/-! ## The Product entity (`src/models/Product.ts`) -/

/-- A persisted product document.  `id` is the store-assigned identifier
and `createdAt`/`updatedAt` the store-managed timestamps (modelled as
logical clock values). -/
structure Product where
  id : Nat
  name : String
  description : String
  price : ℚ
  stock : ℚ
  category : String
  images : List String
  featured : Bool
  createdAt : Nat
  updatedAt : Nat
deriving DecidableEq, Repr

/-- A validated creation payload (the validator's success output for
`create`): every field present, ready for persistence. -/
structure ProductInput where
  name : String
  description : String
  price : ℚ
  stock : ℚ
  category : String
  images : List String
  featured : Bool
deriving DecidableEq, Repr

/-- A validated partial update payload: only the supplied fields. -/
structure UpdatePayload where
  name : Option String := none
  description : Option String := none
  price : Option ℚ := none
  stock : Option ℚ := none
  category : Option String := none
  images : Option (List String) := none
  featured : Option Bool := none
deriving DecidableEq, Repr

structure FieldError where
  field : String
  message : String
deriving DecidableEq, Repr

inductive Validated (α : Type) where
  | ok : α → Validated α
  | err : List FieldError → Validated α
deriving DecidableEq, Repr

/-! ## The Validator

The repository imports `validateProduct`, `validateUpdateProduct` and
`formatValidationErrors` from `@/lib/validations/Product`, a module whose
source is not part of this snapshot; the definitions below are modelled
from the spec's Validator contract (§4.1) and its authoritative field
constraint table. -/

/-- The fixed category enumeration (also declared in the persistence
schema, `src/models/Product.ts`). -/
def categories : List String :=
  ["Electronics", "Clothing", "Food", "Books", "Home", "Sports", "Toys", "Other"]

/-- The raw creation payload assembled by `createProduct` before
validation (`productActions.ts` lines 24–32): `get` results are
`string | null`, numeric fields already coerced by `Number(·)`, `images`
already filtered, `featured` already a boolean. -/
structure RawProduct where
  name : Option String
  description : Option String
  price : JSNum
  stock : JSNum
  category : Option String
  images : List String
  featured : Bool
deriving DecidableEq, Repr

def checkName : Option String → List FieldError
  | none => [⟨"name", "Product name is required"⟩]
  | some s =>
    if 3 ≤ (strTrim s).length && (strTrim s).length ≤ 100 then []
    else [⟨"name", "Product name must be between 3 and 100 characters"⟩]

def checkDescription : Option String → List FieldError
  | none => [⟨"description", "Product description is required"⟩]
  | some s =>
    if 1 ≤ (strTrim s).length && (strTrim s).length ≤ 1000 then []
    else [⟨"description", "Description must be between 1 and 1000 characters"⟩]

def checkPrice : JSNum → List FieldError
  | .nan => [⟨"price", "Price must be a valid number"⟩]
  | .num q => if 0 ≤ q then [] else [⟨"price", "Price cannot be negative"⟩]

def checkStock : JSNum → List FieldError
  | .nan => [⟨"stock", "Stock must be a valid number"⟩]
  | .num q =>
    if q.den ≠ 1 then [⟨"stock", "Stock must be a whole number"⟩]
    else if 0 ≤ q then [] else [⟨"stock", "Stock cannot be negative"⟩]

def checkCategory : Option String → List FieldError
  | none => [⟨"category", "Product category is required"⟩]
  | some s =>
    if categories.contains s then []
    else [⟨"category", "Not a valid category"⟩]

def checkImages (imgs : List String) : List FieldError :=
  if imgs.length ≤ 5 then []
  else [⟨"images", "Cannot upload more than 5 images per product"⟩]

/-- Modelled from the spec: `validateCreate` from the missing
`@/lib/validations/Product` module.  Constraint checks run independently
per field in field-declaration order and all violations are collected;
on success the output payload is fully populated (text fields trimmed,
defaults already materialised by the caller's coercion). -/
def validateProduct (raw : RawProduct) : Validated ProductInput :=
  let es := checkName raw.name ++ checkDescription raw.description ++
    checkPrice raw.price ++ checkStock raw.stock ++
    checkCategory raw.category ++ checkImages raw.images
  match es with
  | [] =>
    match raw.name, raw.description, raw.price, raw.stock, raw.category with
    | some n, some d, .num p, .num st, some c =>
      .ok ⟨strTrim n, strTrim d, p, st, c, raw.images, raw.featured⟩
    | _, _, _, _, _ => .err [⟨"input", "Invalid input"⟩]
  | es => .err es

/-- The sparse raw update payload assembled by `updateProduct`
(`productActions.ts` lines 75–87): a field is `some` exactly when the
form supplied it (and, for `images`, when the filtered list is
non-empty). -/
structure RawUpdate where
  name : Option String := none
  description : Option String := none
  price : Option JSNum := none
  stock : Option JSNum := none
  category : Option String := none
  images : Option (List String) := none
  featured : Option Bool := none
deriving DecidableEq, Repr

/-- Check a supplied update field with the create-time checker; an
absent field contributes nothing. -/
def checkOpt {α : Type} (chk : α → List FieldError) : Option α → List FieldError
  | none => []
  | some a => chk a

/-- Modelled from the spec: `validateUpdate` from the missing
`@/lib/validations/Product` module.  Only supplied fields are
coerced/checked; fields absent from the input are absent from the output
(never defaulted); all errors are collected. -/
def validateUpdateProduct (raw : RawUpdate) : Validated UpdatePayload :=
  let es := checkOpt (fun s => checkName (some s)) raw.name ++
    checkOpt (fun s => checkDescription (some s)) raw.description ++
    checkOpt checkPrice raw.price ++ checkOpt checkStock raw.stock ++
    checkOpt (fun s => checkCategory (some s)) raw.category ++
    checkOpt checkImages raw.images
  match es with
  | [] =>
    .ok { name := raw.name.map strTrim,
          description := raw.description.map strTrim,
          price := raw.price.bind (fun | .num q => some q | .nan => none),
          stock := raw.stock.bind (fun | .num q => some q | .nan => none),
          category := raw.category,
          images := raw.images,
          featured := raw.featured }
  | es => .err es

/-! ## The document store and its schema (`src/models/Product.ts`)

The store is external (MongoDB via mongoose); we model exactly the
behaviour the actions rely on: insertion with duplicate-key detection
driven by the schema's *unique* indexes, lookup/update/delete by id,
filtered find with sort/skip/limit, counting, and save.  A fault
schedule lets any store call (including `dbConnect`) raise instead, which
the actions' `catch` blocks must absorb. -/

/-- An index declaration on the schema. -/
structure SchemaIndex where
  field : String
  unique : Bool
deriving DecidableEq, Repr

/-- The four indexes declared at the bottom of `src/models/Product.ts`:
`ProductSchema.index({name:1})`, `({category:1})`, `({price:1})`,
`({featured:1})`.  None of the declarations (nor any field option in the
schema body) passes `unique: true`, and mongoose's default is a
non-unique index, so every entry here carries `unique := false`. -/
def productSchemaIndexes : List SchemaIndex :=
  [⟨"name", false⟩, ⟨"category", false⟩, ⟨"price", false⟩, ⟨"featured", false⟩]

/-- Whether inserting `payload` into a store holding `ps` violates some
unique index of the schema (MongoDB raises error code 11000 exactly
then). -/
def violatesUniqueIndex (ps : List Product) (payload : ProductInput) : Bool :=
  productSchemaIndexes.any fun ix =>
    ix.unique &&
      match ix.field with
      | "name" => ps.any (fun p => p.name == payload.name)
      | "category" => ps.any (fun p => p.category == payload.category)
      | "price" => ps.any (fun p => p.price == payload.price)
      | "featured" => ps.any (fun p => p.featured == payload.featured)
      | _ => false

/-- A store-level failure: the duplicate-key condition (mongoose error
`code === 11000`) or any other store/connectivity error carrying a
message. -/
inductive StoreErr where
  | dup : StoreErr
  | other : String → StoreErr
deriving DecidableEq, Repr

/-- The message a caught error exposes (`error.message`); for the model
the duplicate-key message text is irrelevant (the action branches on the
code, not the message). -/
def StoreErr.message : StoreErr → String
  | .dup => "E11000 duplicate key error"
  | .other m => m

/-- The world an action runs in: the store contents plus bookkeeping.
`faults` is a schedule consumed one entry per store call (`none` = the
call succeeds, `some e` = it raises `e`; an exhausted schedule means no
further faults); `faulted` records that some call raised during the run;
`storeCalls` logs the persistence operations performed (connectivity
excluded); `revalidated` logs the paths passed to `revalidatePath`. -/
structure World where
  products : List Product
  nextId : Nat := 0
  now : Nat := 0
  faults : List (Option StoreErr) := []
  faulted : Bool := false
  storeCalls : List String := []
  revalidated : List String := []
deriving DecidableEq, Repr

def takeFault (w : World) : Option StoreErr × World :=
  match w.faults with
  | [] => (none, w)
  | f :: rest => (f, { w with faults := rest })

def World.logCall (w : World) (c : String) : World :=
  { w with storeCalls := w.storeCalls ++ [c] }

/-- `revalidatePath(path)` — the cache-invalidation sink. -/
def revalidatePath (path : String) (w : World) : World :=
  { w with revalidated := w.revalidated ++ [path] }

/-- `dbConnect()` — connectivity only; not a persistence operation. -/
def dbConnect (w : World) : Except StoreErr Unit × World :=
  match takeFault w with
  | (some e, w₁) => (.error e, { w₁ with faulted := true })
  | (none, w₁) => (.ok (), w₁)

/-- The document the store persists for `payload` with fresh id `idv` at
time `tv`. -/
def createdDoc (payload : ProductInput) (idv tv : Nat) : Product :=
  ⟨idv, payload.name, payload.description, payload.price, payload.stock,
   payload.category, payload.images, payload.featured, tv, tv⟩

/-- `Product.create(payload)`: raises the duplicate-key condition when a
unique schema index is violated, otherwise assigns id and timestamps and
appends the document. -/
def storeCreate (payload : ProductInput) (w : World) :
    Except StoreErr Product × World :=
  match takeFault w with
  | (some e, w₁) => (.error e, { w₁ with faulted := true })
  | (none, w₁) =>
    let w₂ := w₁.logCall "create"
    if violatesUniqueIndex w₂.products payload then
      (.error .dup, { w₂ with faulted := true })
    else
      let p : Product := createdDoc payload w₂.nextId w₂.now
      (.ok p, { w₂ with products := w₂.products ++ [p],
                        nextId := w₂.nextId + 1, now := w₂.now + 1 })

def findProduct (ps : List Product) (id : Nat) : Option Product :=
  ps.find? (fun p => p.id == id)

/-- `Product.findById(id)`. -/
def storeFindById (id : Nat) (w : World) :
    Except StoreErr (Option Product) × World :=
  match takeFault w with
  | (some e, w₁) => (.error e, { w₁ with faulted := true })
  | (none, w₁) => (.ok (findProduct w₁.products id), w₁.logCall "findById")

/-- Merge a validated partial payload into a stored document. -/
def applyUpdate (p : Product) (u : UpdatePayload) (now : Nat) : Product :=
  { p with
    name := u.name.getD p.name,
    description := u.description.getD p.description,
    price := u.price.getD p.price,
    stock := u.stock.getD p.stock,
    category := u.category.getD p.category,
    images := u.images.getD p.images,
    featured := u.featured.getD p.featured,
    updatedAt := now }

/-- `Product.findByIdAndUpdate(id, payload, {new:true, runValidators:true})`:
atomically merges the payload into the matching document and returns the
updated document (`new:true`), or `null` when no document matches. -/
def storeFindByIdAndUpdate (id : Nat) (u : UpdatePayload) (w : World) :
    Except StoreErr (Option Product) × World :=
  match takeFault w with
  | (some e, w₁) => (.error e, { w₁ with faulted := true })
  | (none, w₁) =>
    let w₂ := w₁.logCall "findByIdAndUpdate"
    match findProduct w₂.products id with
    | none => (.ok none, w₂)
    | some p =>
      let p' := applyUpdate p u w₂.now
      (.ok (some p'),
       { w₂ with
         products := w₂.products.map (fun q => if q.id == id then p' else q),
         now := w₂.now + 1 })

/-- `Product.findByIdAndDelete(id)`. -/
def storeFindByIdAndDelete (id : Nat) (w : World) :
    Except StoreErr (Option Product) × World :=
  match takeFault w with
  | (some e, w₁) => (.error e, { w₁ with faulted := true })
  | (none, w₁) =>
    let w₂ := w₁.logCall "findByIdAndDelete"
    match findProduct w₂.products id with
    | none => (.ok none, w₂)
    | some p =>
      (.ok (some p),
       { w₂ with products := w₂.products.filter (fun q => q.id != id) })

/-- `product.save()` on a loaded document: writes it back by id and bumps
`updatedAt` (timestamps). -/
def storeSave (p : Product) (w : World) : Except StoreErr Product × World :=
  match takeFault w with
  | (some e, w₁) => (.error e, { w₁ with faulted := true })
  | (none, w₁) =>
    let w₂ := w₁.logCall "save"
    let p' := { p with updatedAt := w₂.now }
    (.ok p',
     { w₂ with
       products := w₂.products.map (fun q => if q.id == p.id then p' else q),
       now := w₂.now + 1 })

/-! ## The listing query (`getAllProducts`, lines 194–235) -/

/-- The filter `getAllProducts` builds: an `$or` of case-insensitive
`$regex` clauses on `name`/`description` when `search` is truthy (JS: a
non-empty string), and an exact `category` clause when `category` is
truthy; clauses combine conjunctively.  An empty query matches every
document. -/
def matchesQuery (search category : String) (p : Product) : Bool :=
  (if search = "" then true
   else ciContains p.name search || ciContains p.description search) &&
  (if category = "" then true else p.category == category)

def insertDesc (p : Product) : List Product → List Product
  | [] => [p]
  | q :: qs =>
    if q.createdAt < p.createdAt then p :: q :: qs else q :: insertDesc p qs

/-- `.sort({createdAt: -1})`: creation time descending. -/
def sortByCreatedDesc (ps : List Product) : List Product :=
  ps.foldr insertDesc []

/-- `Product.find(query).sort({createdAt:-1}).skip(skip).limit(limit)`. -/
def storeFind (search category : String) (skip limit : Nat) (w : World) :
    Except StoreErr (List Product) × World :=
  match takeFault w with
  | (some e, w₁) => (.error e, { w₁ with faulted := true })
  | (none, w₁) =>
    (.ok (((sortByCreatedDesc
        (w₁.products.filter (matchesQuery search category))).drop skip).take limit),
     w₁.logCall "find")

/-- `Product.countDocuments(query)`. -/
def storeCount (search category : String) (w : World) :
    Except StoreErr Nat × World :=
  match takeFault w with
  | (some e, w₁) => (.error e, { w₁ with faulted := true })
  | (none, w₁) =>
    (.ok (w₁.products.filter (matchesQuery search category)).length,
     w₁.logCall "countDocuments")

/-! ## The server actions (`src/lib/actions/productActions.ts`) -/

/-- The uniform result envelope `ActionResponse<T>`. -/
structure ActionResponse (α : Type) where
  success : Bool
  data : Option α := none
  error : Option String := none
  errors : List FieldError := []
deriving DecidableEq, Repr

/-- A generic `catch` block: `{success:false, error: error.message || fallback}`. -/
def genericCatch {α : Type} (fallback : String) (e : StoreErr) : ActionResponse α :=
  { success := false,
    error := some (if e.message = "" then fallback else e.message) }

/-- The `catch` block of `createProduct` (lines 51–64): the duplicate-key
code 11000 gets the distinguishable duplicate-name message, everything
else falls through to the generic failure. -/
def createCatch (e : StoreErr) : ActionResponse Product :=
  match e with
  | .dup => { success := false, error := some "A product with this name already exists" }
  | .other _ => genericCatch "Failed to create product. Please try again." e

/-- The raw data object of `createProduct` (lines 24–32). -/
def buildRawData (fd : FormData) : RawProduct :=
  { name := fd.get "name",
    description := fd.get "description",
    price := jsNumber (fd.get "price"),
    stock := jsNumber (fd.get "stock"),
    category := fd.get "category",
    images := (fd.getAll "images").filter (fun img => img != ""),
    featured := fd.get "featured" == some "true" || fd.get "featured" == some "on" }

/-- `createProduct(formData)` (lines 21–66). -/
def createProduct (fd : FormData) (w : World) : ActionResponse Product × World :=
  match dbConnect w with
  | (.error e, w₁) => (createCatch e, w₁)
  | (.ok _, w₁) =>
    match validateProduct (buildRawData fd) with
    | .err es => ({ success := false, error := some "Validation failed", errors := es }, w₁)
    | .ok payload =>
      match storeCreate payload w₁ with
      | (.error e, w₂) => (createCatch e, w₂)
      | (.ok p, w₂) =>
        ({ success := true, data := some p }, revalidatePath "/dashboard/products" w₂)

/-- The sparse raw data object of `updateProduct` (lines 75–87): a field
is included exactly when the form has it; `images` only when the
filtered list is non-empty. -/
def buildUpdateRaw (fd : FormData) : RawUpdate :=
  let imgs := (fd.getAll "images").filter (fun img => img != "")
  { name := if fd.has "name" then fd.get "name" else none,
    description := if fd.has "description" then fd.get "description" else none,
    price := if fd.has "price" then some (jsNumber (fd.get "price")) else none,
    stock := if fd.has "stock" then some (jsNumber (fd.get "stock")) else none,
    category := if fd.has "category" then fd.get "category" else none,
    images := if imgs.length > 0 then some imgs else none,
    featured :=
      if fd.has "featured" then
        some (fd.get "featured" == some "true" || fd.get "featured" == some "on")
      else none }

/-- `updateProduct(id, formData)` (lines 68–127). -/
def updateProduct (id : Nat) (fd : FormData) (w : World) :
    ActionResponse Product × World :=
  match dbConnect w with
  | (.error e, w₁) => (genericCatch "Failed to update product. Please try again." e, w₁)
  | (.ok _, w₁) =>
    match validateUpdateProduct (buildUpdateRaw fd) with
    | .err es => ({ success := false, error := some "Validation failed", errors := es }, w₁)
    | .ok u =>
      match storeFindByIdAndUpdate id u w₁ with
      | (.error e, w₂) => (genericCatch "Failed to update product. Please try again." e, w₂)
      | (.ok none, w₂) => ({ success := false, error := some "Product not found" }, w₂)
      | (.ok (some p), w₂) =>
        ({ success := true, data := some p },
         revalidatePath ("/dashboard/products/" ++ toString id)
           (revalidatePath "/dashboard/products" w₂))

/-- `deleteProduct(id)` (lines 129–156). -/
def deleteProduct (id : Nat) (w : World) : ActionResponse String × World :=
  match dbConnect w with
  | (.error e, w₁) => (genericCatch "Failed to delete product. Please try again." e, w₁)
  | (.ok _, w₁) =>
    match storeFindByIdAndDelete id w₁ with
    | (.error e, w₂) => (genericCatch "Failed to delete product. Please try again." e, w₂)
    | (.ok none, w₂) => ({ success := false, error := some "Product not found" }, w₂)
    | (.ok (some _), w₂) =>
      ({ success := true, data := some "Product deleted successfully" },
       revalidatePath "/dashboard/products" w₂)

/-- `getProductById(id)` (lines 158–183). -/
def getProductById (id : Nat) (w : World) : ActionResponse Product × World :=
  match dbConnect w with
  | (.error e, w₁) => (genericCatch "Failed to fetch product. Please try again." e, w₁)
  | (.ok _, w₁) =>
    match storeFindById id w₁ with
    | (.error e, w₂) => (genericCatch "Failed to fetch product. Please try again." e, w₂)
    | (.ok none, w₂) => ({ success := false, error := some "Product not found" }, w₂)
    | (.ok (some p), w₂) => ({ success := true, data := some p }, w₂)

/-- The optional parameter object of `getAllProducts`. -/
structure ListParams where
  search : Option String := none
  category : Option String := none
  page : Option Nat := none
  limit : Option Nat := none
deriving DecidableEq, Repr

structure Pagination where
  page : Nat
  limit : Nat
  total : Nat
  totalPages : Nat
deriving DecidableEq, Repr

structure ListData where
  products : List Product
  pagination : Pagination
deriving DecidableEq, Repr

/-- `Math.ceil(total / limit)` on non-negative integers (for `limit ≥ 1`;
`limit = 0` would give `Infinity`/`NaN` in JS and is outside every
claim). -/
def jsCeilDiv (total limit : Nat) : Nat :=
  (Int.ceil ((total : ℚ) / (limit : ℚ))).toNat

/-- `getAllProducts(params?)` (lines 185–245). -/
def getAllProducts (params : Option ListParams) (w : World) :
    ActionResponse ListData × World :=
  match dbConnect w with
  | (.error e, w₁) => (genericCatch "Failed to fetch products. Please try again." e, w₁)
  | (.ok _, w₁) =>
    let ps := params.getD {}
    let search := ps.search.getD ""
    let category := ps.category.getD ""
    let page := ps.page.getD 1
    let limit := ps.limit.getD 10
    let skip := (page - 1) * limit
    match storeFind search category skip limit w₁ with
    | (.error e, w₂) => (genericCatch "Failed to fetch products. Please try again." e, w₂)
    | (.ok products, w₂) =>
      match storeCount search category w₂ with
      | (.error e, w₃) => (genericCatch "Failed to fetch products. Please try again." e, w₃)
      | (.ok total, w₃) =>
        ({ success := true,
           data := some ⟨products, ⟨page, limit, total, jsCeilDiv total limit⟩⟩ }, w₃)

/-- `toggleFeaturedStatus(id)` (lines 247–278). -/
def toggleFeaturedStatus (id : Nat) (w : World) : ActionResponse Product × World :=
  match dbConnect w with
  | (.error e, w₁) => (genericCatch "Failed to update product. Please try again." e, w₁)
  | (.ok _, w₁) =>
    match storeFindById id w₁ with
    | (.error e, w₂) => (genericCatch "Failed to update product. Please try again." e, w₂)
    | (.ok none, w₂) => ({ success := false, error := some "Product not found" }, w₂)
    | (.ok (some p), w₂) =>
      match storeSave { p with featured := !p.featured } w₂ with
      | (.error e, w₃) => (genericCatch "Failed to update product. Please try again." e, w₃)
      | (.ok saved, w₃) =>
        ({ success := true, data := some saved },
         revalidatePath ("/dashboard/products/" ++ toString id)
           (revalidatePath "/dashboard/products" w₃))

/-! ## Concrete instances used in the theorems -/

def emptyWorld : World := { products := [] }

/-- A fully valid creation form. -/
def fdWireless : FormData :=
  ⟨[("name", "Wireless Mouse"), ("description", "A wireless mouse"),
    ("price", "25"), ("stock", "5"), ("category", "Electronics")]⟩

/-- A creation form whose numeric fields are absent. -/
def fdNoNums : FormData :=
  ⟨[("name", "Wireless Mouse"), ("description", "A wireless mouse"),
    ("category", "Electronics")]⟩

/-- A creation form whose numeric fields are present but non-numeric. -/
def fdBadNums : FormData :=
  ⟨[("name", "Wireless Mouse"), ("description", "A wireless mouse"),
    ("price", "abc"), ("stock", "x1"), ("category", "Electronics")]⟩

/-- An update form with an invalid (too short) name. -/
def fdShortName : FormData := ⟨[("name", "ab")]⟩

/-- An update form renaming the product, whose `images` entries are all
empty strings (an empty multi-value submission). -/
def fdRename : FormData :=
  ⟨[("name", "Optical Mouse"), ("images", ""), ("images", "")]⟩

def pWireless : Product :=
  ⟨0, "Wireless Mouse", "A wireless mouse", 25, 5, "Electronics",
   ["img.png"], false, 0, 0⟩

/-- A one-product store. -/
def wOne : World := { products := [pWireless], nextId := 1, now := 1 }

def mkProduct (i : Nat) : Product :=
  ⟨i, "Product", "desc", 1, 0, "Electronics", [], false, i, i⟩

/-- A 25-product store for the pagination example. -/
def w25 : World :=
  { products := (List.range 25).map mkProduct, nextId := 25, now := 25 }

/-- A world whose first store call is scheduled to raise a connectivity
error. -/
def wFaulty : World :=
  { products := [pWireless], nextId := 1, now := 1,
    faults := [some (.other "connection lost")] }

/-! ## Infrastructure lemmas -/

theorem violatesUniqueIndex_false (ps : List Product) (payload : ProductInput) :
    violatesUniqueIndex ps payload = false := rfl

theorem takeFault_of_nil {w : World} (h : w.faults = []) :
    takeFault w = (none, w) := by
  simp [takeFault, h]

theorem dbConnect_of_nil {w : World} (h : w.faults = []) :
    dbConnect w = (.ok (), w) := by
  simp [dbConnect, takeFault_of_nil h]

/-- With no scheduled fault, `Product.create` always succeeds: no schema
index is unique, so the duplicate-key branch cannot trigger. -/
theorem storeCreate_of_nil {w : World} (payload : ProductInput)
    (h : w.faults = []) :
    storeCreate payload w =
      (.ok (createdDoc payload w.nextId w.now),
       { w with
          products := w.products ++ [createdDoc payload w.nextId w.now],
          nextId := w.nextId + 1,
          now := w.now + 1,
          storeCalls := w.storeCalls ++ ["create"] }) := by
  simp [storeCreate, takeFault_of_nil h, violatesUniqueIndex_false,
    World.logCall, createdDoc]

/-- `validateProduct` returns `.err` on the collected error list whenever
it is non-empty. -/
theorem validateProduct_err (raw : RawProduct)
    (h : checkName raw.name ++ checkDescription raw.description ++
      checkPrice raw.price ++ checkStock raw.stock ++
      checkCategory raw.category ++ checkImages raw.images ≠ []) :
    validateProduct raw =
      .err (checkName raw.name ++ checkDescription raw.description ++
        checkPrice raw.price ++ checkStock raw.stock ++
        checkCategory raw.category ++ checkImages raw.images) := by
  unfold validateProduct
  cases hes : checkName raw.name ++ checkDescription raw.description ++
      checkPrice raw.price ++ checkStock raw.stock ++
      checkCategory raw.category ++ checkImages raw.images with
  | nil => exact absurd hes h
  | cons a as => simp [hes]

/-! ## Claim C1 -/

/-- C1: the spec claims name uniqueness is store-enforced so that a
second `create` with an identical name hits the duplicate-key branch.
The schema declares only a non-unique index on `name`
(`ProductSchema.index({name:1})`, no `unique: true` anywhere), so no
insert can ever violate a unique index and the duplicate-key handler in
`createProduct` is unreachable: creating the same valid payload twice
succeeds twice, and the second result is not the duplicate-name error. -/
theorem C1_duplicate_insert_succeeds :
    (∀ ps payload, violatesUniqueIndex ps payload = false) ∧
    (createProduct fdWireless emptyWorld).1.success = true ∧
    (createProduct fdWireless (createProduct fdWireless emptyWorld).2).1.success = true ∧
    (createProduct fdWireless (createProduct fdWireless emptyWorld).2).1.error ≠
      some "A product with this name already exists" := by
  refine ⟨fun ps payload => rfl, ?_, ?_, ?_⟩ <;> decide

/-! ## Claim C2 -/

/-- C2 (counterexample): the claim says an *absent* numeric field yields
a validation error, never a silently accepted default.  But
`Number(formData.get('price'))` is `Number(null) = 0` when the key is
absent, `0` satisfies every price/stock constraint, and the create with
both numeric fields missing succeeds, persisting price 0 and stock 0. -/
theorem C2_absent_numeric_accepted :
    fdNoNums.get "price" = none ∧ fdNoNums.get "stock" = none ∧
    (createProduct fdNoNums emptyWorld).1.success = true ∧
    (createProduct fdNoNums emptyWorld).1.errors = [] ∧
    (createProduct fdNoNums emptyWorld).1.data.map Product.price = some 0 := by
  refine ⟨?_, ?_, ?_, ?_, ?_⟩ <;> decide

/-- C2 (amended): a numeric field that is present but non-numeric coerces
to `NaN` and validation fails with an error on that field; a numeric
field that is absent coerces to `0`, which passes that field's
constraint checks (it is silently accepted, not rejected). -/
theorem C2_numeric_coercion (fd : FormData) :
    ((buildRawData fd).price = .nan →
      ∃ es, validateProduct (buildRawData fd) = .err es ∧
        (⟨"price", "Price must be a valid number"⟩ : FieldError) ∈ es) ∧
    ((buildRawData fd).stock = .nan →
      ∃ es, validateProduct (buildRawData fd) = .err es ∧
        (⟨"stock", "Stock must be a valid number"⟩ : FieldError) ∈ es) ∧
    (fd.get "price" = none →
      (buildRawData fd).price = .num 0 ∧ checkPrice (buildRawData fd).price = []) ∧
    (fd.get "stock" = none →
      (buildRawData fd).stock = .num 0 ∧ checkStock (buildRawData fd).stock = []) := by
  refine ⟨?_, ?_, ?_, ?_⟩
  · intro hp
    refine ⟨_, validateProduct_err _ ?_, ?_⟩
    · intro heq
      rw [hp] at heq
      simp [checkPrice] at heq
    · rw [hp]
      simp [checkPrice]
  · intro hs
    refine ⟨_, validateProduct_err _ ?_, ?_⟩
    · intro heq
      rw [hs] at heq
      simp [checkStock] at heq
    · rw [hs]
      simp [checkStock]
  · intro hp
    have : (buildRawData fd).price = .num 0 := by
      simp [buildRawData, hp, jsNumber]
    exact ⟨this, by rw [this]; simp [checkPrice]⟩
  · intro hs
    have : (buildRawData fd).stock = .num 0 := by
      simp [buildRawData, hs, jsNumber]
    exact ⟨this, by rw [this]; simp [checkStock]⟩

/-- C2 (witness): the amended statement applied at the concrete forms:
`fdBadNums` carries `price=abc` (coerces to `NaN`, validation fails on
`price`), `fdNoNums` omits `price` (coerces to `0`, which the price
checks accept). -/
theorem C2_numeric_coercion_witness :
    (∃ es, validateProduct (buildRawData fdBadNums) = .err es ∧
      (⟨"price", "Price must be a valid number"⟩ : FieldError) ∈ es) ∧
    (buildRawData fdNoNums).price = .num 0 ∧
    checkPrice (buildRawData fdNoNums).price = [] :=
  ⟨(C2_numeric_coercion fdBadNums).1 (by decide),
   (C2_numeric_coercion fdNoNums).2.2.1 (by decide)⟩

/-! ## Sorting and ceiling-division lemmas -/

theorem length_insertDesc (p : Product) (l : List Product) :
    (insertDesc p l).length = l.length + 1 := by
  induction l with
  | nil => rfl
  | cons q qs ih => simp only [insertDesc]; split <;> simp [ih]

theorem mem_insertDesc {a p : Product} {l : List Product} :
    a ∈ insertDesc p l ↔ a = p ∨ a ∈ l := by
  induction l with
  | nil => simp [insertDesc]
  | cons q qs ih =>
    simp only [insertDesc]
    split <;> simp [ih] <;> tauto

theorem pairwise_insertDesc {p : Product} {l : List Product}
    (h : List.Pairwise (fun a b => b.createdAt ≤ a.createdAt) l) :
    List.Pairwise (fun a b => b.createdAt ≤ a.createdAt) (insertDesc p l) := by
  induction l with
  | nil => simp [insertDesc]
  | cons q qs ih =>
    cases h with
    | cons hq hqs =>
      simp only [insertDesc]
      split
      · rename_i hlt
        refine List.Pairwise.cons ?_ (List.Pairwise.cons hq hqs)
        intro b hb
        rcases List.mem_cons.mp hb with rfl | hb
        · exact Nat.le_of_lt hlt
        · exact (hq b hb).trans (Nat.le_of_lt hlt)
      · rename_i hge
        refine List.Pairwise.cons ?_ (ih hqs)
        intro b hb
        rcases mem_insertDesc.mp hb with rfl | hb
        · exact Nat.le_of_not_lt hge
        · exact hq b hb

theorem sortByCreatedDesc_cons (a : Product) (l : List Product) :
    sortByCreatedDesc (a :: l) = insertDesc a (sortByCreatedDesc l) := rfl

theorem length_sortByCreatedDesc (l : List Product) :
    (sortByCreatedDesc l).length = l.length := by
  induction l with
  | nil => rfl
  | cons a l ih => rw [sortByCreatedDesc_cons, length_insertDesc, ih]; rfl

theorem mem_sortByCreatedDesc {a : Product} {l : List Product} :
    a ∈ sortByCreatedDesc l ↔ a ∈ l := by
  induction l with
  | nil => simp [sortByCreatedDesc]
  | cons b l ih => rw [sortByCreatedDesc_cons]; simp [mem_insertDesc, ih]

theorem sortByCreatedDesc_pairwise (l : List Product) :
    List.Pairwise (fun a b => b.createdAt ≤ a.createdAt) (sortByCreatedDesc l) := by
  induction l with
  | nil => simp [sortByCreatedDesc]
  | cons a l ih => rw [sortByCreatedDesc_cons]; exact pairwise_insertDesc ih

/-- `Math.ceil(total/limit)` agrees with natural ceiling division for a
positive `limit`. -/
theorem jsCeilDiv_eq (t l : Nat) (hl : 1 ≤ l) :
    jsCeilDiv t l = (t + l - 1) / l := by
  have hl0 : (0 : ℚ) < l := by exact_mod_cast hl
  have hdm := Nat.div_add_mod (t + l - 1) l
  have hmlt : (t + l - 1) % l < l := Nat.mod_lt _ hl
  set z := (t + l - 1) / l with hz
  set m := (t + l - 1) % l with hm
  have hsum : l * z + m + 1 = t + l := by omega
  have hsumq : (l : ℚ) * z + m + 1 = t + l := by exact_mod_cast hsum
  have hmq : (m : ℚ) + 1 ≤ l := by exact_mod_cast hmlt
  have h1 : (t : ℚ) / l ≤ (z : ℚ) := by
    rw [div_le_iff₀ hl0]
    nlinarith
  have h2 : (z : ℚ) - 1 < (t : ℚ) / l := by
    rw [lt_div_iff₀ hl0]
    have hm0 : (0 : ℚ) ≤ m := by positivity
    nlinarith
  have hceil : Int.ceil ((t : ℚ) / l) = (z : ℤ) := by
    rw [Int.ceil_eq_iff]
    constructor
    · push_cast
      exact h2
    · push_cast
      exact h1
  rw [jsCeilDiv, hceil, Int.toNat_natCast]

/-! ## Reducing the listing operation under a fault-free schedule -/

theorem storeFind_of_nil {w : World} (s c : String) (sk li : Nat)
    (h : w.faults = []) :
    storeFind s c sk li w =
      (.ok (((sortByCreatedDesc (w.products.filter (matchesQuery s c))).drop
          sk).take li), w.logCall "find") := by
  simp [storeFind, takeFault_of_nil h]

theorem storeCount_of_nil {w : World} (s c : String) (h : w.faults = []) :
    storeCount s c w =
      (.ok (w.products.filter (matchesQuery s c)).length,
       w.logCall "countDocuments") := by
  simp [storeCount, takeFault_of_nil h]

/-- The full behaviour of `getAllProducts` when no store call faults. -/
theorem getAllProducts_of_nil (params : ListParams) {w : World}
    (hw : w.faults = []) :
    getAllProducts (some params) w =
      ({ success := true,
         data := some
           ⟨((sortByCreatedDesc (w.products.filter
                 (matchesQuery (params.search.getD "") (params.category.getD "")))).drop
               ((params.page.getD 1 - 1) * params.limit.getD 10)).take
             (params.limit.getD 10),
            ⟨params.page.getD 1, params.limit.getD 10,
             (w.products.filter
               (matchesQuery (params.search.getD "") (params.category.getD ""))).length,
             jsCeilDiv
               (w.products.filter
                 (matchesQuery (params.search.getD "") (params.category.getD ""))).length
               (params.limit.getD 10)⟩⟩ },
       (w.logCall "find").logCall "countDocuments") := by
  have hw' : (World.logCall w "find").faults = [] := by simp [World.logCall, hw]
  simp only [getAllProducts, dbConnect_of_nil hw, Option.getD_some,
    storeFind_of_nil _ _ _ _ hw, storeCount_of_nil _ _ hw']
  simp [World.logCall]

/-! ## Claim C3 -/

/-- C3: the validated update payload contains only fields the form
supplied (omitted fields are never added or defaulted); when `images` is
supplied but filters down to empty it is omitted from the payload, so a
stored non-empty `images` list survives `findByIdAndUpdate` with such a
payload. -/
theorem C3_update_frame (fd : FormData) (u : UpdatePayload)
    (h : validateUpdateProduct (buildUpdateRaw fd) = .ok u) :
    (u.name.isSome → fd.has "name" = true) ∧
    (u.description.isSome → fd.has "description" = true) ∧
    (u.price.isSome → fd.has "price" = true) ∧
    (u.stock.isSome → fd.has "stock" = true) ∧
    (u.category.isSome → fd.has "category" = true) ∧
    (u.featured.isSome → fd.has "featured" = true) ∧
    (∀ l, u.images = some l → l ≠ []) ∧
    (∀ p now, p.images ≠ [] → (applyUpdate p u now).images ≠ []) := by
  have himg : ∀ l, u.images = some l → l ≠ [] := by
    simp only [validateUpdateProduct] at h
    split at h
    · cases h
      simp only [buildUpdateRaw]
      intro l hl
      split at hl
      · cases hl
        rename_i hlen
        exact List.ne_nil_of_length_pos hlen
      · cases hl
    · cases h
  refine ⟨?_, ?_, ?_, ?_, ?_, ?_, himg, ?_⟩
  · simp only [validateUpdateProduct] at h
    split at h
    · cases h
      simp only [buildUpdateRaw]
      by_cases hn : fd.has "name" = true <;> simp [hn]
    · cases h
  · simp only [validateUpdateProduct] at h
    split at h
    · cases h
      simp only [buildUpdateRaw]
      by_cases hn : fd.has "description" = true <;> simp [hn]
    · cases h
  · simp only [validateUpdateProduct] at h
    split at h
    · cases h
      simp only [buildUpdateRaw]
      by_cases hn : fd.has "price" = true <;> simp [hn]
    · cases h
  · simp only [validateUpdateProduct] at h
    split at h
    · cases h
      simp only [buildUpdateRaw]
      by_cases hn : fd.has "stock" = true <;> simp [hn]
    · cases h
  · simp only [validateUpdateProduct] at h
    split at h
    · cases h
      simp only [buildUpdateRaw]
      by_cases hn : fd.has "category" = true <;> simp [hn]
    · cases h
  · simp only [validateUpdateProduct] at h
    split at h
    · cases h
      simp only [buildUpdateRaw]
      by_cases hn : fd.has "featured" = true <;> simp [hn]
    · cases h
  · intro p now hp
    unfold applyUpdate
    cases hu : u.images with
    | none => simpa [hu] using hp
    | some l => simpa [hu] using himg l hu

/-- C3 (witness): `fdRename` supplies a new name and two empty-string
`images` entries; validation succeeds with a payload containing only the
name, and applying it never clears a non-empty image list. -/
theorem C3_update_frame_witness :
    validateUpdateProduct (buildUpdateRaw fdRename) =
      .ok { name := some "Optical Mouse" } ∧
    (∀ p now, p.images ≠ [] →
      (applyUpdate p { name := some "Optical Mouse" } now).images ≠ []) :=
  ⟨by decide, (C3_update_frame fdRename _ (by decide)).2.2.2.2.2.2.2⟩

/-! ## Claim C4 -/

/-- C4: `page` defaults to 1, `limit` defaults to 10; the page slice is
the filtered collection sorted by creation time descending, with exactly
`(page-1)*limit` entries skipped and at most `limit` taken; the
pagination summary is `{page, limit, total, totalPages = ceil(total/limit)}`
with `total` the full count of matching documents. -/
theorem C4_pagination (params : ListParams) (w : World)
    (hw : w.faults = []) (hp : 1 ≤ params.page.getD 1)
    (hl : 1 ≤ params.limit.getD 10) :
    ∃ d, (getAllProducts (some params) w).1 = ⟨true, some d, none, []⟩ ∧
      d.products =
        ((sortByCreatedDesc (w.products.filter
            (matchesQuery (params.search.getD "") (params.category.getD "")))).drop
          ((params.page.getD 1 - 1) * params.limit.getD 10)).take
          (params.limit.getD 10) ∧
      d.pagination.page = params.page.getD 1 ∧
      d.pagination.limit = params.limit.getD 10 ∧
      d.pagination.total =
        (w.products.filter
          (matchesQuery (params.search.getD "") (params.category.getD ""))).length ∧
      d.pagination.totalPages =
        (d.pagination.total + d.pagination.limit - 1) / d.pagination.limit ∧
      d.products.length =
        min (params.limit.getD 10)
          (d.pagination.total - (params.page.getD 1 - 1) * params.limit.getD 10) ∧
      List.Pairwise (fun a b => b.createdAt ≤ a.createdAt) d.products ∧
      (∀ p ∈ d.products,
        matchesQuery (params.search.getD "") (params.category.getD "") p = true) := by
  rw [getAllProducts_of_nil params hw]
  refine ⟨_, rfl, rfl, rfl, rfl, rfl, jsCeilDiv_eq _ _ hl, ?_, ?_, ?_⟩
  · simp [List.length_take, List.length_drop, length_sortByCreatedDesc]
  · exact List.Pairwise.sublist
      ((List.take_sublist _ _).trans (List.drop_sublist _ _))
      (sortByCreatedDesc_pairwise _)
  · intro p hmem
    have hsub : p ∈ sortByCreatedDesc (w.products.filter
        (matchesQuery (params.search.getD "") (params.category.getD ""))) :=
      ((List.take_sublist _ _).trans (List.drop_sublist _ _)).subset hmem
    exact (List.mem_filter.mp (mem_sortByCreatedDesc.mp hsub)).2

/-- C4 (witness): the spec's concrete example — 25 products, `page=3`,
`limit=10` — yields `totalPages = 3` and a third page of 5 items, with
the summary `{page:3, limit:10, total:25, totalPages:3}`. -/
theorem C4_pagination_witness :
    ∃ d, (getAllProducts (some ⟨none, none, some 3, some 10⟩) w25).1 =
        ⟨true, some d, none, []⟩ ∧
      d.pagination.page = 3 ∧ d.pagination.limit = 10 ∧
      d.pagination.total = 25 ∧ d.pagination.totalPages = 3 ∧
      d.products.length = 5 := by
  obtain ⟨d, hd, hprod, hpage, hlimit, htotal, htp, hlen, hpw, hmem⟩ :=
    C4_pagination ⟨none, none, some 3, some 10⟩ w25 rfl (by decide) (by decide)
  have ht25 : d.pagination.total = 25 := by rw [htotal]; decide
  have hl10 : d.pagination.limit = 10 := by rw [hlimit]; rfl
  refine ⟨d, hd, by rw [hpage]; rfl, hl10, ht25, ?_, ?_⟩
  · rw [htp, ht25, hl10]
  · rw [hlen, ht25]
    decide

/-! ## Claim C5 -/

theorem listStartsWith_iff (n : List Char) :
    ∀ h, listStartsWith n h = true ↔ ∃ r, h = n ++ r := by
  induction n with
  | nil => intro h; simp [listStartsWith]
  | cons a as ih =>
    intro h
    cases h with
    | nil => simp [listStartsWith]
    | cons b bs =>
      simp only [listStartsWith, Bool.and_eq_true, beq_iff_eq, ih,
        List.cons_append, List.cons.injEq]
      constructor
      · rintro ⟨rfl, r, rfl⟩
        exact ⟨r, rfl, rfl⟩
      · rintro ⟨r, rfl, rfl⟩
        exact ⟨rfl, r, rfl⟩

theorem listContainsSub_iff (n : List Char) :
    ∀ h, listContainsSub n h = true ↔ ∃ l r, h = l ++ n ++ r := by
  intro h
  induction h with
  | nil =>
    simp only [listContainsSub, listStartsWith_iff]
    constructor
    · rintro ⟨r, hr⟩
      exact ⟨[], r, by simpa using hr⟩
    · rintro ⟨l, r, hr⟩
      have h1 := List.append_eq_nil.mp hr.symm
      have h2 := List.append_eq_nil.mp h1.1
      exact ⟨[], by simp [h2.2]⟩
  | cons b bs ih =>
    simp only [listContainsSub, Bool.or_eq_true, ih, listStartsWith_iff]
    constructor
    · rintro (⟨r, hr⟩ | ⟨l, r, hr⟩)
      · exact ⟨[], r, by simpa using hr⟩
      · exact ⟨b :: l, r, by simp [hr]⟩
    · rintro ⟨l, r, hr⟩
      cases l with
      | nil => exact Or.inl ⟨r, by simpa using hr⟩
      | cons x xs =>
        simp only [List.cons_append, List.cons.injEq] at hr
        exact Or.inr ⟨xs, r, hr.2⟩

/-- C5: with a non-empty search string, a product passes the listing
filter iff the lowercased search string occurs as a substring of its
lowercased name or description, and (conjunctively) the category clause
holds — absent (empty) category matches everything, otherwise equality. -/
theorem C5_search_filter (search category : String) (p : Product)
    (hs : search ≠ "") :
    matchesQuery search category p = true ↔
      ((∃ l r, (strLower p.name).data = l ++ (strLower search).data ++ r) ∨
       (∃ l r, (strLower p.description).data = l ++ (strLower search).data ++ r)) ∧
      (category = "" ∨ p.category = category) := by
  unfold matchesQuery
  rw [if_neg hs]
  by_cases hc : category = ""
  · simp [hc, ciContains, listContainsSub_iff]
  · simp [hc, ciContains, listContainsSub_iff]

/-- C5 (witness): the spec's example — a product named "Wireless Mouse"
is matched by `search="wireless"`, and the theorem exhibits the
case-insensitive substring occurrence. -/
theorem C5_search_filter_witness :
    matchesQuery "wireless" "" pWireless = true ∧
    ((∃ l r, (strLower pWireless.name).data = l ++ (strLower "wireless").data ++ r) ∨
     (∃ l r, (strLower pWireless.description).data = l ++ (strLower "wireless").data ++ r)) :=
  ⟨by decide,
   ((C5_search_filter "wireless" "" pWireless (by decide)).mp (by decide)).1⟩

/-! ## Claim C6 -/

/-- C6: when validation fails, `createProduct` and `updateProduct`
return `{success:false, error:"Validation failed", errors}` and leave
the world exactly as it was: no persistence call is made (`storeCalls`
unchanged — in fact the whole world is unchanged) and no path is
invalidated. -/
theorem C6_validation_short_circuit (fd : FormData) (w : World) (id : Nat)
    (hw : w.faults = []) :
    (∀ es, validateProduct (buildRawData fd) = .err es →
      createProduct fd w = (⟨false, none, some "Validation failed", es⟩, w)) ∧
    (∀ es, validateUpdateProduct (buildUpdateRaw fd) = .err es →
      updateProduct id fd w = (⟨false, none, some "Validation failed", es⟩, w)) := by
  constructor
  · intro es hes
    simp [createProduct, dbConnect_of_nil hw, hes]
  · intro es hes
    simp [updateProduct, dbConnect_of_nil hw, hes]

/-- C6 (witness): `fdShortName` (a two-character name) fails create
validation (name too short, description and category missing) and fails
update validation (name too short); both operations return the
validation envelope with the world untouched. -/
theorem C6_validation_short_circuit_witness :
    validateProduct (buildRawData fdShortName) =
      .err [⟨"name", "Product name must be between 3 and 100 characters"⟩,
            ⟨"description", "Product description is required"⟩,
            ⟨"category", "Product category is required"⟩] ∧
    createProduct fdShortName emptyWorld =
      (⟨false, none, some "Validation failed",
        [⟨"name", "Product name must be between 3 and 100 characters"⟩,
         ⟨"description", "Product description is required"⟩,
         ⟨"category", "Product category is required"⟩]⟩, emptyWorld) ∧
    validateUpdateProduct (buildUpdateRaw fdShortName) =
      .err [⟨"name", "Product name must be between 3 and 100 characters"⟩] ∧
    updateProduct 7 fdShortName emptyWorld =
      (⟨false, none, some "Validation failed",
        [⟨"name", "Product name must be between 3 and 100 characters"⟩]⟩,
       emptyWorld) :=
  ⟨by decide,
   (C6_validation_short_circuit fdShortName emptyWorld 7 rfl).1 _ (by decide),
   by decide,
   (C6_validation_short_circuit fdShortName emptyWorld 7 rfl).2 _ (by decide)⟩

/-! ## Claim C7 -/

/-- C7: deleting a nonexistent id returns the distinguishable
`"Product not found"` result with no cache invalidation and no change to
the stored collection; a successful delete removes the document and
invalidates exactly the listing view. -/
theorem C7_remove (id : Nat) (w : World) (hw : w.faults = []) :
    (findProduct w.products id = none →
      (deleteProduct id w).1 = ⟨false, none, some "Product not found", []⟩ ∧
      (deleteProduct id w).2.revalidated = w.revalidated ∧
      (deleteProduct id w).2.products = w.products) ∧
    (∀ p, findProduct w.products id = some p →
      (deleteProduct id w).1 =
        ⟨true, some "Product deleted successfully", none, []⟩ ∧
      (deleteProduct id w).2.revalidated =
        w.revalidated ++ ["/dashboard/products"] ∧
      (deleteProduct id w).2.products =
        w.products.filter (fun q => q.id != id)) := by
  constructor
  · intro hnone
    refine ⟨?_, ?_, ?_⟩ <;>
      simp [deleteProduct, dbConnect_of_nil hw, storeFindByIdAndDelete,
        takeFault_of_nil hw, World.logCall, hnone]
  · intro p hsome
    refine ⟨?_, ?_, ?_⟩ <;>
      simp [deleteProduct, dbConnect_of_nil hw, storeFindByIdAndDelete,
        takeFault_of_nil hw, World.logCall, hsome, revalidatePath]

/-- C7 (witness): on the one-product store, deleting id 5 is "not found"
with nothing invalidated; deleting id 0 succeeds and invalidates exactly
the listing path. -/
theorem C7_remove_witness :
    (deleteProduct 5 wOne).1 = ⟨false, none, some "Product not found", []⟩ ∧
    (deleteProduct 5 wOne).2.revalidated = [] ∧
    (deleteProduct 0 wOne).1 =
      ⟨true, some "Product deleted successfully", none, []⟩ ∧
    (deleteProduct 0 wOne).2.revalidated = ["/dashboard/products"] ∧
    (deleteProduct 0 wOne).2.products = [] := by
  have h5 := (C7_remove 5 wOne rfl).1 (by decide)
  have h0 := (C7_remove 0 wOne rfl).2 pWireless (by decide)
  refine ⟨h5.1, by rw [h5.2.1]; rfl, h0.1, by rw [h0.2.1]; rfl,
    by rw [h0.2.2]; decide⟩

/-! ## Claim C8 -/

theorem findProduct_some_id {ps : List Product} {id : Nat} {p : Product}
    (h : findProduct ps id = some p) : p.id = id := by
  have := List.find?_some h
  simpa using this

theorem findProduct_map_set {ps : List Product} {id : Nat} {p p' : Product}
    (hp : findProduct ps id = some p) (hid : p'.id = id) :
    findProduct (ps.map (fun q => if q.id == id then p' else q)) id = some p' := by
  induction ps with
  | nil => simp [findProduct] at hp
  | cons a as ih =>
    by_cases ha : (a.id == id) = true
    · rw [List.map_cons, if_pos ha, findProduct]
      rw [List.find?_cons_of_pos _ (by simpa using hid)]
    · rw [findProduct, List.find?_cons_of_neg _ (by simpa using ha)] at hp
      rw [List.map_cons, if_neg ha, findProduct,
        List.find?_cons_of_neg _ (by simpa using ha)]
      exact ih hp

/-- One successful toggle: the response succeeds and the stored document
now carries the negated flag. -/
theorem toggle_found {id : Nat} {w : World} {p : Product}
    (hw : w.faults = []) (hfind : findProduct w.products id = some p) :
    (toggleFeaturedStatus id w).1.success = true ∧
    (toggleFeaturedStatus id w).2.faults = [] ∧
    ∃ p₁, findProduct (toggleFeaturedStatus id w).2.products id = some p₁ ∧
      p₁.featured = !p.featured := by
  have hid : p.id = id := findProduct_some_id hfind
  simp only [toggleFeaturedStatus, dbConnect_of_nil hw, storeFindById,
    takeFault_of_nil hw, World.logCall, storeSave, takeFault, hw, hfind,
    revalidatePath]
  refine ⟨trivial, trivial, ?_⟩
  rw [hid]
  exact ⟨_, findProduct_map_set hfind rfl, rfl⟩

/-- C8: toggling an existing product flips its stored `featured` flag;
toggling twice restores the original value; a missing id yields the
"Product not found" response with the collection unchanged. -/
theorem C8_toggle (id : Nat) (w : World) (hw : w.faults = []) :
    (findProduct w.products id = none →
      (toggleFeaturedStatus id w).1 =
        ⟨false, none, some "Product not found", []⟩ ∧
      (toggleFeaturedStatus id w).2.products = w.products) ∧
    (∀ p, findProduct w.products id = some p →
      (toggleFeaturedStatus id w).1.success = true ∧
      (∃ p₁, findProduct (toggleFeaturedStatus id w).2.products id = some p₁ ∧
        p₁.featured = !p.featured) ∧
      ∃ p₂,
        findProduct
          (toggleFeaturedStatus id (toggleFeaturedStatus id w).2).2.products
          id = some p₂ ∧
        p₂.featured = p.featured) := by
  constructor
  · intro hnone
    constructor <;>
      simp [toggleFeaturedStatus, dbConnect_of_nil hw, storeFindById,
        takeFault_of_nil hw, World.logCall, hnone]
  · intro p hsome
    obtain ⟨hs₁, hf₁, p₁, hp₁, hflip₁⟩ := toggle_found hw hsome
    obtain ⟨hs₂, hf₂, p₂, hp₂, hflip₂⟩ := toggle_found hf₁ hp₁
    exact ⟨hs₁, ⟨p₁, hp₁, hflip₁⟩,
      ⟨p₂, hp₂, by rw [hflip₂, hflip₁, Bool.not_not]⟩⟩

/-- C8 (witness): on the one-product store (`featured = false`), one
toggle stores `featured = true`, a second stores `featured = false`
again; toggling a missing id returns "Product not found" and changes
nothing. -/
theorem C8_toggle_witness :
    (∃ p₁, findProduct (toggleFeaturedStatus 0 wOne).2.products 0 = some p₁ ∧
      p₁.featured = true) ∧
    (∃ p₂,
      findProduct
        (toggleFeaturedStatus 0 (toggleFeaturedStatus 0 wOne).2).2.products
        0 = some p₂ ∧
      p₂.featured = false) ∧
    (toggleFeaturedStatus 9 wOne).1 =
      ⟨false, none, some "Product not found", []⟩ ∧
    (toggleFeaturedStatus 9 wOne).2.products = wOne.products := by
  obtain ⟨-, ⟨p₁, hp₁, hf₁⟩, p₂, hp₂, hf₂⟩ :=
    (C8_toggle 0 wOne rfl).2 pWireless (by decide)
  have h9 := (C8_toggle 9 wOne rfl).1 (by decide)
  exact ⟨⟨p₁, hp₁, by rw [hf₁]; rfl⟩, ⟨p₂, hp₂, by rw [hf₂]; rfl⟩, h9.1, h9.2⟩

/-! ## Claim C9

Each action is a total function of its input and the world — in the
embedding there is no way to escape with an exception — so the provable
content of the claim is that whenever a store call raises (whatever the
scheduled error), the action's result is a `success = false` envelope.
The lemmas below record that a *successful* store call never sets the
`faulted` flag, so a run that ends `success = true` cannot have absorbed
a store error. -/

theorem takeFault_snd_faulted (w : World) :
    (takeFault w).2.faulted = w.faulted := by
  cases h : w.faults <;> simp [takeFault, h]

theorem dbConnect_ok_faulted {w : World} {u : Unit} {w' : World}
    (h : dbConnect w = (.ok u, w')) : w'.faulted = w.faulted := by
  have hs := takeFault_snd_faulted w
  unfold dbConnect at h
  rcases htf : takeFault w with ⟨f, w₁⟩
  rw [htf] at h hs
  cases f with
  | none =>
    injection h with h1 h2
    subst h2
    simpa using hs
  | some e => injection h with h1 h2; exact Except.noConfusion h1

theorem storeCreate_ok_faulted {payload : ProductInput} {w : World}
    {p : Product} {w' : World} (h : storeCreate payload w = (.ok p, w')) :
    w'.faulted = w.faulted := by
  have hs := takeFault_snd_faulted w
  unfold storeCreate at h
  rcases htf : takeFault w with ⟨f, w₁⟩
  rw [htf] at h hs
  cases f with
  | none =>
    simp only [violatesUniqueIndex_false, Bool.false_eq_true, if_false] at h
    injection h with h1 h2
    subst h2
    simp only [World.logCall] at *
    simpa using hs
  | some e => injection h with h1 h2; exact Except.noConfusion h1

theorem storeFindById_ok_faulted {id : Nat} {w : World} {r : Option Product}
    {w' : World} (h : storeFindById id w = (.ok r, w')) :
    w'.faulted = w.faulted := by
  have hs := takeFault_snd_faulted w
  unfold storeFindById at h
  rcases htf : takeFault w with ⟨f, w₁⟩
  rw [htf] at h hs
  cases f with
  | none =>
    injection h with h1 h2
    subst h2
    simp only [World.logCall] at *
    simpa using hs
  | some e => injection h with h1 h2; exact Except.noConfusion h1

theorem storeFindByIdAndUpdate_ok_faulted {id : Nat} {u : UpdatePayload}
    {w : World} {r : Option Product} {w' : World}
    (h : storeFindByIdAndUpdate id u w = (.ok r, w')) :
    w'.faulted = w.faulted := by
  rcases hfl : w.faults with _ | ⟨f, rest⟩
  · simp only [storeFindByIdAndUpdate, takeFault, hfl, World.logCall] at h
    split at h <;>
      (injection h with h1 h2; subst h2; simp)
  · cases f with
    | none =>
      simp only [storeFindByIdAndUpdate, takeFault, hfl, World.logCall] at h
      split at h <;>
        (injection h with h1 h2; subst h2; simp)
    | some e =>
      simp only [storeFindByIdAndUpdate, takeFault, hfl] at h
      exact absurd h (by simp)

theorem storeFindByIdAndDelete_ok_faulted {id : Nat} {w : World}
    {r : Option Product} {w' : World}
    (h : storeFindByIdAndDelete id w = (.ok r, w')) :
    w'.faulted = w.faulted := by
  rcases hfl : w.faults with _ | ⟨f, rest⟩
  · simp only [storeFindByIdAndDelete, takeFault, hfl, World.logCall] at h
    split at h <;>
      (injection h with h1 h2; subst h2; simp)
  · cases f with
    | none =>
      simp only [storeFindByIdAndDelete, takeFault, hfl, World.logCall] at h
      split at h <;>
        (injection h with h1 h2; subst h2; simp)
    | some e =>
      simp only [storeFindByIdAndDelete, takeFault, hfl] at h
      exact absurd h (by simp)

theorem storeSave_ok_faulted {p : Product} {w : World} {p' : Product}
    {w' : World} (h : storeSave p w = (.ok p', w')) :
    w'.faulted = w.faulted := by
  have hs := takeFault_snd_faulted w
  unfold storeSave at h
  rcases htf : takeFault w with ⟨f, w₁⟩
  rw [htf] at h hs
  cases f with
  | none =>
    injection h with h1 h2
    subst h2
    simp only [World.logCall] at *
    simpa using hs
  | some e => injection h with h1 h2; exact Except.noConfusion h1

theorem storeFind_ok_faulted {s c : String} {sk li : Nat} {w : World}
    {r : List Product} {w' : World}
    (h : storeFind s c sk li w = (.ok r, w')) : w'.faulted = w.faulted := by
  have hs := takeFault_snd_faulted w
  unfold storeFind at h
  rcases htf : takeFault w with ⟨f, w₁⟩
  rw [htf] at h hs
  cases f with
  | none =>
    injection h with h1 h2
    subst h2
    simp only [World.logCall] at *
    simpa using hs
  | some e => injection h with h1 h2; exact Except.noConfusion h1

theorem storeCount_ok_faulted {s c : String} {w : World} {n : Nat}
    {w' : World} (h : storeCount s c w = (.ok n, w')) :
    w'.faulted = w.faulted := by
  have hs := takeFault_snd_faulted w
  unfold storeCount at h
  rcases htf : takeFault w with ⟨f, w₁⟩
  rw [htf] at h hs
  cases f with
  | none =>
    injection h with h1 h2
    subst h2
    simp only [World.logCall] at *
    simpa using hs
  | some e => injection h with h1 h2; exact Except.noConfusion h1

/-- C9: every operation is total at its boundary: it always returns an
`ActionResponse` value (totality of the embedding functions), and
whenever any store call during the run raises — connectivity loss, a
duplicate-key condition, or any other scheduled store error, at any call
site — the returned envelope has `success = false`: a run that absorbed a
fault never reports success. -/
theorem C9_boundary_totality (fd : FormData) (id : Nat)
    (params : Option ListParams) (w : World) (hw : w.faulted = false) :
    ((createProduct fd w).2.faulted = true →
      (createProduct fd w).1.success = false) ∧
    ((updateProduct id fd w).2.faulted = true →
      (updateProduct id fd w).1.success = false) ∧
    ((deleteProduct id w).2.faulted = true →
      (deleteProduct id w).1.success = false) ∧
    ((getProductById id w).2.faulted = true →
      (getProductById id w).1.success = false) ∧
    ((getAllProducts params w).2.faulted = true →
      (getAllProducts params w).1.success = false) ∧
    ((toggleFeaturedStatus id w).2.faulted = true →
      (toggleFeaturedStatus id w).1.success = false) := by
  refine ⟨?_, ?_, ?_, ?_, ?_, ?_⟩
  · rcases h1 : dbConnect w with ⟨r1, w1⟩
    cases r1 with
    | error e =>
      intro _
      simp only [createProduct, h1]
      cases e <;> rfl
    | ok u =>
      rcases hv : validateProduct (buildRawData fd) with payload | es
      · rcases h2 : storeCreate payload w1 with ⟨r2, w2⟩
        cases r2 with
        | error e =>
          intro _
          simp only [createProduct, h1, hv, h2]
          cases e <;> rfl
        | ok p =>
          intro hf
          exfalso
          simp only [createProduct, h1, hv, h2, revalidatePath] at hf
          rw [storeCreate_ok_faulted h2, dbConnect_ok_faulted h1, hw] at hf
          exact Bool.false_ne_true hf
      · intro _
        simp only [createProduct, h1, hv]
  · rcases h1 : dbConnect w with ⟨r1, w1⟩
    cases r1 with
    | error e =>
      intro _
      simp only [updateProduct, h1]
      rfl
    | ok u =>
      rcases hv : validateUpdateProduct (buildUpdateRaw fd) with payload | es
      · rcases h2 : storeFindByIdAndUpdate id payload w1 with ⟨r2, w2⟩
        cases r2 with
        | error e =>
          intro _
          simp only [updateProduct, h1, hv, h2]
          rfl
        | ok res =>
          cases res with
          | none =>
            intro _
            simp only [updateProduct, h1, hv, h2]
          | some p =>
            intro hf
            exfalso
            simp only [updateProduct, h1, hv, h2, revalidatePath] at hf
            rw [storeFindByIdAndUpdate_ok_faulted h2, dbConnect_ok_faulted h1,
              hw] at hf
            exact Bool.false_ne_true hf
      · intro _
        simp only [updateProduct, h1, hv]
  · rcases h1 : dbConnect w with ⟨r1, w1⟩
    cases r1 with
    | error e =>
      intro _
      simp only [deleteProduct, h1]
      rfl
    | ok u =>
      rcases h2 : storeFindByIdAndDelete id w1 with ⟨r2, w2⟩
      cases r2 with
      | error e =>
        intro _
        simp only [deleteProduct, h1, h2]
        rfl
      | ok res =>
        cases res with
        | none =>
          intro _
          simp only [deleteProduct, h1, h2]
        | some p =>
          intro hf
          exfalso
          simp only [deleteProduct, h1, h2, revalidatePath] at hf
          rw [storeFindByIdAndDelete_ok_faulted h2, dbConnect_ok_faulted h1,
            hw] at hf
          exact Bool.false_ne_true hf
  · rcases h1 : dbConnect w with ⟨r1, w1⟩
    cases r1 with
    | error e =>
      intro _
      simp only [getProductById, h1]
      rfl
    | ok u =>
      rcases h2 : storeFindById id w1 with ⟨r2, w2⟩
      cases r2 with
      | error e =>
        intro _
        simp only [getProductById, h1, h2]
        rfl
      | ok res =>
        cases res with
        | none =>
          intro _
          simp only [getProductById, h1, h2]
        | some p =>
          intro hf
          exfalso
          simp only [getProductById, h1, h2] at hf
          rw [storeFindById_ok_faulted h2, dbConnect_ok_faulted h1, hw] at hf
          exact Bool.false_ne_true hf
  · rcases h1 : dbConnect w with ⟨r1, w1⟩
    cases r1 with
    | error e =>
      intro _
      simp only [getAllProducts, h1]
      rfl
    | ok u =>
      rcases h2 : storeFind ((params.getD {}).search.getD "")
          ((params.getD {}).category.getD "")
          (((params.getD {}).page.getD 1 - 1) * (params.getD {}).limit.getD 10)
          ((params.getD {}).limit.getD 10) w1 with ⟨r2, w2⟩
      cases r2 with
      | error e =>
        intro _
        simp only [getAllProducts, h1, h2]
        rfl
      | ok prods =>
        rcases h3 : storeCount ((params.getD {}).search.getD "")
            ((params.getD {}).category.getD "") w2 with ⟨r3, w3⟩
        cases r3 with
        | error e =>
          intro _
          simp only [getAllProducts, h1, h2, h3]
          rfl
        | ok total =>
          intro hf
          exfalso
          simp only [getAllProducts, h1, h2, h3] at hf
          rw [storeCount_ok_faulted h3, storeFind_ok_faulted h2,
            dbConnect_ok_faulted h1, hw] at hf
          exact Bool.false_ne_true hf
  · rcases h1 : dbConnect w with ⟨r1, w1⟩
    cases r1 with
    | error e =>
      intro _
      simp only [toggleFeaturedStatus, h1]
      rfl
    | ok u =>
      rcases h2 : storeFindById id w1 with ⟨r2, w2⟩
      cases r2 with
      | error e =>
        intro _
        simp only [toggleFeaturedStatus, h1, h2]
        rfl
      | ok res =>
        cases res with
        | none =>
          intro _
          simp only [toggleFeaturedStatus, h1, h2]
        | some p =>
          rcases h3 : storeSave { p with featured := !p.featured } w2
            with ⟨r3, w3⟩
          cases r3 with
          | error e =>
            intro _
            simp only [toggleFeaturedStatus, h1, h2, h3]
            rfl
          | ok saved =>
            intro hf
            exfalso
            simp only [toggleFeaturedStatus, h1, h2, h3, revalidatePath] at hf
            rw [storeSave_ok_faulted h3, storeFindById_ok_faulted h2,
              dbConnect_ok_faulted h1, hw] at hf
            exact Bool.false_ne_true hf

/-- C9 (witness): a world whose first store call is scheduled to raise a
connectivity error: the create and the toggle both absorb it and report
failure. -/
theorem C9_boundary_totality_witness :
    wFaulty.faulted = false ∧
    (createProduct fdWireless wFaulty).2.faulted = true ∧
    (createProduct fdWireless wFaulty).1.success = false ∧
    (toggleFeaturedStatus 0 wFaulty).1.success = false :=
  ⟨rfl, by decide,
   (C9_boundary_totality fdWireless 0 none wFaulty rfl).1 (by decide),
   (C9_boundary_totality fdWireless 0 none wFaulty rfl).2.2.2.2.2 (by decide)⟩

/-! ## Claim C10 -/

/-- C10: an empty-string `search` or `category` is falsy in the
`if (search)` / `if (category)` guards, so no filter clause is added:
the call behaves exactly like one with the parameters absent, every
document matches the (empty) query, and `total` counts the whole
collection. -/
theorem C10_empty_string_params (pg li : Option Nat) (w : World)
    (hw : w.faults = []) :
    getAllProducts (some ⟨some "", some "", pg, li⟩) w =
      getAllProducts (some ⟨none, none, pg, li⟩) w ∧
    (∀ p, matchesQuery "" "" p = true) ∧
    ∃ d, (getAllProducts (some ⟨some "", some "", pg, li⟩) w).1 =
        ⟨true, some d, none, []⟩ ∧
      d.pagination.total = w.products.length := by
  have hm : ∀ p, matchesQuery "" "" p = true := fun p => rfl
  refine ⟨rfl, hm, ?_⟩
  rw [getAllProducts_of_nil _ hw]
  refine ⟨_, rfl, ?_⟩
  simp only [Option.getD_some]
  rw [List.filter_eq_self.mpr (fun a _ => hm a)]

/-- C10 (witness): on the one-product store, the empty-string call
coincides with the absent-parameter call and reports `total = 1`. -/
theorem C10_empty_string_params_witness :
    getAllProducts (some ⟨some "", some "", some 1, some 10⟩) wOne =
      getAllProducts (some ⟨none, none, some 1, some 10⟩) wOne ∧
    ∃ d, (getAllProducts (some ⟨some "", some "", some 1, some 10⟩) wOne).1 =
        ⟨true, some d, none, []⟩ ∧
      d.pagination.total = 1 := by
  obtain ⟨heq, -, d, hd, ht⟩ :=
    C10_empty_string_params (some 1) (some 10) wOne rfl
  exact ⟨heq, d, hd, by rw [ht]; rfl⟩

end SSR
